import Mathlib

/-
Verification of the pattern-based code-rewrite engine of CodeEvolveAI.

The development shallowly embeds the pure string-rewriting core of
src/server/lib/codeAnalyzer.ts (analyzeCode and its helper rewrites) and the
nested-loop flattening helper optimizeNestedLoops of the geometric optimizer
(server/lib/geometricOptimizer.ts).  JavaScript strings are modelled as Lean
String / List Char; the handful of hand-written regular expressions in the
source are embedded as deterministic character-list matchers that follow the
JavaScript backtracking semantics of the concrete patterns (every quantifier
in those patterns is followed by a character it can never consume, so greedy
matching without backtracking coincides with the JS behaviour; this is noted
where it matters).  Math.random() is modelled by an arbitrary natural number
argument r, with Math.floor(Math.random() * 20) embedded as r % 20.
-/

namespace CodeEvolve

set_option maxRecDepth 100000

/-! Character classes used by the regular expressions in the source.
JS \s also covers some exotic unicode spaces; the sources and all inputs
considered here only ever use the ASCII whitespace characters below. -/

def isSpaceChar (c : Char) : Bool :=
  c == ' ' || c == '\t' || c == '\n' || c == '\r' || c == '\x0b' || c == '\x0c'

/-- Class [A-Za-z0-9_], the JS \w and the class in /var\s+([a-zA-Z0-9_]+)/. -/
def isWordChar (c : Char) : Bool :=
  c.isAlpha || c.isDigit || c == '_'

/-- Class [a-zA-Z0-9] used by the camel-case regex in improveReadability. -/
def isAlnumChar (c : Char) : Bool :=
  c.isAlpha || c.isDigit

def isWordOpt (p : Option Char) : Bool :=
  match p with
  | some c => isWordChar c
  | none => false

/-! Substring test: JS String.prototype.includes. -/

def containsSub : List Char → List Char → Bool
  | [], sub => sub.isEmpty
  | c :: cs, sub => sub.isPrefixOf (c :: cs) || containsSub cs sub

/-- Embeds code.includes(sub) from the source. -/
def includes (s sub : String) : Bool :=
  containsSub s.data sub.data

/-- Embeds the truthiness of code.match(/[a-z][A-Z]/): some adjacent
lowercase-uppercase pair occurs in the string. -/
def hasLowerUpperPair : List Char → Bool
  | [] => false
  | [_] => false
  | a :: b :: rest => (a.isLower && b.isUpper) || hasLowerUpperPair (b :: rest)

/-! Matcher combinators.  A matcher consumes from the head of a character
list and returns the remainder on success. -/

/-- Consume the literal pat from the head of s. -/
def eatStr : List Char → List Char → Option (List Char)
  | [], s => some s
  | _ :: _, [] => none
  | p :: ps, c :: cs => if p == c then eatStr ps cs else none

/-- Greedy \s* : consume the maximal whitespace run.  In every pattern of the
source \s* is followed by a non-whitespace literal, so no backtracking is
needed. -/
def eatWs : List Char → List Char
  | [] => []
  | c :: cs => if isSpaceChar c then eatWs cs else c :: cs

/-- Greedy \s+ (at least one whitespace character, then as in eatWs). -/
def eatWs1 : List Char → Option (List Char)
  | [] => none
  | c :: cs => if isSpaceChar c then some (eatWs cs) else none

/-! Tiny regex-fragment interpreter: a pattern is a list of items, each a
literal, \s* or \s+.  In every pattern appearing in the source, \s* and \s+
are followed by a non-whitespace literal, so this greedy no-backtracking
interpretation coincides with the JS regex semantics. -/

inductive RItem where
  | lit (t : String)
  | ws0
  | ws1

def runItems : List RItem → List Char → Option (List Char)
  | [], s => some s
  | RItem.lit t :: rest, s => (eatStr t.data s).bind (runItems rest)
  | RItem.ws0 :: rest, s => runItems rest (eatWs s)
  | RItem.ws1 :: rest, s => (eatWs1 s).bind (runItems rest)

/-! Embedding of the first-match replace in applyMemoization
(codeAnalyzer.ts lines 140-159).  The pattern is
/function\s+fibonacci\s*\(\s*n\s*\)\s*\x7b[\s\S]*?return\s+fibonacci\s*\(\s*n\s*-\s*1\s*\)\s*\+\s*fibonacci\s*\(\s*n\s*-\s*2\s*\)\s*;?/m
used without the g flag, so String.replace rewrites only the first match.
The lazy [\s\S]*? makes the match end at the earliest position after the
header where the return-expression tail matches. -/

def matchFibHeader (s : List Char) : Option (List Char) :=
  runItems
    [RItem.lit "function", RItem.ws1, RItem.lit "fibonacci", RItem.ws0,
     RItem.lit "(", RItem.ws0, RItem.lit "n", RItem.ws0, RItem.lit ")",
     RItem.ws0, RItem.lit "\x7b"] s

def matchFibTail (s : List Char) : Option (List Char) :=
  match runItems
    [RItem.lit "return", RItem.ws1, RItem.lit "fibonacci", RItem.ws0,
     RItem.lit "(", RItem.ws0, RItem.lit "n", RItem.ws0, RItem.lit "-",
     RItem.ws0, RItem.lit "1", RItem.ws0, RItem.lit ")", RItem.ws0,
     RItem.lit "+", RItem.ws0, RItem.lit "fibonacci", RItem.ws0,
     RItem.lit "(", RItem.ws0, RItem.lit "n", RItem.ws0, RItem.lit "-",
     RItem.ws0, RItem.lit "2", RItem.ws0, RItem.lit ")", RItem.ws0] s with
  | none => none
  | some s =>
    -- trailing ;? : an optional semicolon
    match s with
    | ';' :: cs => some cs
    | _ => some s

/-- Lazy scan for the tail: try matchFibTail at each successive position
(shortest middle first, as [\s\S]*? does). -/
def fibTailScan : List Char → Option (List Char)
  | [] => none
  | c :: cs =>
    match matchFibTail (c :: cs) with
    | some r => some r
    | none => fibTailScan cs

/-- Whole pattern anchored at the head of s; returns the remainder after the
match. -/
def matchFibAt (s : List Char) : Option (List Char) :=
  (matchFibHeader s).bind fibTailScan

/-- Leftmost match of the fibonacci pattern: returns (text before the match,
text after the match), or none when the pattern does not occur. -/
def findFib : List Char → Option (List Char × List Char)
  | [] => none
  | c :: cs =>
    match matchFibAt (c :: cs) with
    | some r => some ([], r)
    | none =>
      match findFib cs with
      | some (pre, post) => some (c :: pre, post)
      | none => none

/-- Replacement template of applyMemoization (codeAnalyzer.ts lines 145-155),
byte for byte. -/
def fibMemoTemplate : String :=
  "function fibonacci(n, memo = \x7b\x7d) \x7b\n  // Base cases\n  if (n <= 0) return 0;\n  if (n == 1) return 1;\n  \n  // Check if we've already calculated this value\n  if (memo[n] !== undefined) return memo[n];\n  \n  // Store result in memo object to avoid recalculation\n  memo[n] = fibonacci(n - 1, memo) + fibonacci(n - 2, memo);\n  return memo[n];"

/-- Embeds applyMemoization (codeAnalyzer.ts lines 140-159). -/
def applyMemoization (code : String) : String :=
  if includes code "function fibonacci" || includes code "const fibonacci" then
    match findFib code.data with
    | some (pre, post) => String.mk (pre ++ fibMemoTemplate.data ++ post)
    | none => code
  else code

/-! Global regex replace, JS String.prototype.replace with the g flag:
scan left to right over the original string; at each position try the
matcher; on a match emit its replacement and resume right after the match,
otherwise copy one character.  Word-boundary matchers need the character
preceding the current position, threaded as prev.  A matcher returns
(replacement, matched text, remainder).  Every pattern in the source matches
at least one character, so the remainder is always strictly shorter; the
fuel argument (initialised to the string length, which that fact makes
sufficient) only makes the recursion structural. -/

def lastCharOr (p : Option Char) (matched : List Char) : Option Char :=
  match matched.getLast? with
  | some c => some c
  | none => p

def scanReplace (m : Option Char → List Char → Option (List Char × List Char × List Char)) :
    Nat → Option Char → List Char → List Char
  | _, _, [] => []
  | 0, _, s => s
  | fuel + 1, prev, c :: cs =>
    match m prev (c :: cs) with
    | some (rep, matched, rest) =>
      if rest.length < cs.length + 1 then
        rep ++ scanReplace m fuel (lastCharOr prev matched) rest
      else
        c :: scanReplace m fuel (some c) cs
    | none => c :: scanReplace m fuel (some c) cs

def replaceAllWith (m : Option Char → List Char → Option (List Char × List Char × List Char))
    (s : String) : String :=
  String.mk (scanReplace m s.data.length none s.data)

/-- Global regex match (JS String.prototype.match with the g flag): the list
of matched substrings, scanning as in scanReplace.  A null result in JS
corresponds to the empty list (the source only iterates over the result). -/
def scanMatchList (m : Option Char → List Char → Option (List Char × List Char)) :
    Nat → Option Char → List Char → List (List Char)
  | _, _, [] => []
  | 0, _, _ => []
  | fuel + 1, prev, c :: cs =>
    match m prev (c :: cs) with
    | some (matched, rest) =>
      if rest.length < cs.length + 1 then
        matched :: scanMatchList m fuel (lastCharOr prev matched) rest
      else
        scanMatchList m fuel (some c) cs
    | none => scanMatchList m fuel (some c) cs

def matchedOf (s rest : List Char) : List Char :=
  s.take (s.length - rest.length)

/-! Embedding of fixXssVulnerability (codeAnalyzer.ts lines 161-164):
code.replace(/\.innerHTML\s*=/g, '.textContent ='). -/

def innerHTMLRewriter (_ : Option Char) (s : List Char) :
    Option (List Char × List Char × List Char) :=
  match runItems [RItem.lit ".innerHTML", RItem.ws0, RItem.lit "="] s with
  | some rest => some (".textContent =".data, matchedOf s rest, rest)
  | none => none

def fixXssVulnerability (code : String) : String :=
  replaceAllWith innerHTMLRewriter code

/-! Embedding of improveReadability (codeAnalyzer.ts lines 166-181). -/

/-- Matcher for /var\s+([a-zA-Z0-9_]+)/g with replacement 'const $1'. -/
def varRewriter (_ : Option Char) (s : List Char) :
    Option (List Char × List Char × List Char) :=
  match eatStr "var".data s with
  | none => none
  | some s1 =>
    match eatWs1 s1 with
    | none => none
    | some s2 =>
      let (w, rest) := s2.span isWordChar
      if w.isEmpty then none
      else some ("const ".data ++ w, matchedOf s rest, rest)

/-- Matcher for /\b[a-z][a-zA-Z0-9]*[A-Z][a-zA-Z0-9]*\b/g.  At a position
preceded by a non-word character, the greedy run after the leading [a-z]
backtracks to the last upper-case letter of the maximal alphanumeric run and
the second greedy star then extends the match to the end of that run, so the
whole run is matched exactly when it contains an upper-case letter and the
character following it is not an underscore (any other follower is already
non-alphanumeric, hence a word boundary). -/
def camelMatcher (prev : Option Char) (s : List Char) :
    Option (List Char × List Char) :=
  if isWordOpt prev then none
  else
    match s with
    | [] => none
    | c :: cs =>
      if c.isLower then
        let (run, rest) := cs.span isAlnumChar
        if run.any (fun d => d.isUpper) then
          match rest with
          | '_' :: _ => none
          | _ => some (c :: run, rest)
        else none
      else none

/-- Embeds variable.replace(/[A-Z]/g, letter => underscore + lowercase). -/
def toSnake : List Char → List Char
  | [] => []
  | c :: cs => (if c.isUpper then ['_', c.toLower] else [c]) ++ toSnake cs

/-- Matcher for new RegExp(backslash-b + variable + backslash-b, 'g')
replacing the whole-word variable with its snake-case form. -/
def wordRewriter (v snake : List Char) (prev : Option Char) (s : List Char) :
    Option (List Char × List Char × List Char) :=
  if isWordOpt prev then none
  else
    match eatStr v s with
    | none => none
    | some rest =>
      match rest with
      | r :: _ => if isWordChar r then none else some (snake, v, rest)
      | [] => some (snake, v, rest)

def improveReadability (code : String) : String :=
  let improved := replaceAllWith varRewriter code
  let camelCaseVars := scanMatchList camelMatcher code.data.length none code.data
  camelCaseVars.foldl
    (fun acc v => replaceAllWith (wordRewriter v (toSnake v)) acc) improved

/-! Embedding of optimizePythonLoop (codeAnalyzer.ts lines 183-189):
code.replace(/results\s*=\s*\[\]\s*\n\s*for\s+([a-zA-Z0-9_]+)\s+in\s+range\(([^)]+)\):\s*\n\s*results\.append\(([^)]+)\)/g,
'results = [$3 for $1 in range($2)]'). -/

/-- Fragment \s*\n\s* : a greedy whitespace run that must contain at least
one newline (the greedy \s* backtracks to the last newline of the run and
the second \s* then consumes the rest, so the effect is exactly that). -/
def eatWsNl (s : List Char) : Option (List Char) :=
  let (run, rest) := s.span isSpaceChar
  if run.contains '\n' then some rest else none

/-- Greedy [^stop]+ capture: the maximal run of characters other than stop,
required non-empty. -/
def spanNot (stop : Char) (s : List Char) : List Char × List Char :=
  s.span (fun c => !(c == stop))

def pythonLoopRewriter (_ : Option Char) (s : List Char) :
    Option (List Char × List Char × List Char) :=
  match runItems [RItem.lit "results", RItem.ws0, RItem.lit "=", RItem.ws0,
                  RItem.lit "[]"] s with
  | none => none
  | some s1 =>
    match eatWsNl s1 with
    | none => none
    | some s2 =>
      match eatStr "for".data s2 with
      | none => none
      | some s3 =>
        match eatWs1 s3 with
        | none => none
        | some s4 =>
          let (g1, s5) := s4.span isWordChar
          if g1.isEmpty then none
          else
            match runItems [RItem.ws1, RItem.lit "in", RItem.ws1,
                            RItem.lit "range("] s5 with
            | none => none
            | some s6 =>
              let (g2, s7) := spanNot ')' s6
              if g2.isEmpty then none
              else
                match eatStr "):".data s7 with
                | none => none
                | some s8 =>
                  match eatWsNl s8 with
                  | none => none
                  | some s9 =>
                    match eatStr "results.append(".data s9 with
                    | none => none
                    | some s10 =>
                      let (g3, s11) := spanNot ')' s10
                      if g3.isEmpty then none
                      else
                        match eatStr ")".data s11 with
                        | none => none
                        | some rest =>
                          some ("results = [".data ++ g3 ++ " for ".data ++ g1 ++
                                " in range(".data ++ g2 ++ ")]".data,
                                matchedOf s rest, rest)

def optimizePythonLoop (code : String) : String :=
  replaceAllWith pythonLoopRewriter code

/-! Embedding of suggestBetterVariableNames (codeAnalyzer.ts lines 191-214):
a fold over the replacement table, each entry applied as a global literal
replace (the keys contain no regex metacharacters). -/

def litRewriter (pat rep : List Char) (_ : Option Char) (s : List Char) :
    Option (List Char × List Char × List Char) :=
  match eatStr pat s with
  | some rest => some (rep, pat, rest)
  | none => none

def variableNameReplacements : List (String × String) :=
  [("var i = ", "const index = "),
   ("var j = ", "const position = "),
   ("var a = ", "const array = "),
   ("var s = ", "const string = "),
   ("var str = ", "const inputString = "),
   ("var arr = ", "const elements = "),
   ("var e = ", "const event = "),
   ("var x = ", "const xPosition = "),
   ("var y = ", "const yPosition = "),
   ("var fn = ", "const callback = "),
   ("var tmp = ", "const temporary = ")]

def suggestBetterVariableNames (code : String) : String :=
  variableNameReplacements.foldl
    (fun acc pr => replaceAllWith (litRewriter pr.1.data pr.2.data) acc) code

/-! Embedding of optimizeNestedLoops (geometricOptimizer.ts lines 484-506):
code.replace(/for\s*\(let\s+i\s*=\s*0\s*;\s*i\s*<\s*([^;]+)\s*;\s*i\s*\+\+\s*\)\s*\x7b\s*for\s*\(let\s+j\s*=\s*0\s*;\s*j\s*<\s*([^;]+)\s*;\s*j\s*\+\+\s*\)\s*\x7b([\s\S]*?)\x7d\s*\x7d/g, callback);
the callback keeps the match unchanged when the inner body mentions j+1 or
j-1 and otherwise substitutes the flattened single-loop template.  In
([^;]+)\s*; the greedy capture runs to the character before the next
semicolon (whitespace included, the following \s* matching empty). -/

def matchCloseBraces (s : List Char) : Option (List Char) :=
  runItems [RItem.lit "\x7d", RItem.ws0, RItem.lit "\x7d"] s

/-- Lazy ([\s\S]*?) followed by the two closing braces: stop at the first
position where the closing braces match; returns (inner code, remainder). -/
def braceScan : List Char → Option (List Char × List Char)
  | [] => none
  | c :: cs =>
    match matchCloseBraces (c :: cs) with
    | some rest => some ([], rest)
    | none =>
      match braceScan cs with
      | some (inner, rest) => some (c :: inner, rest)
      | none => none

/-- Template returned by the optimizeNestedLoops callback (the odd
characters in the second comment line reproduce the source file's bytes). -/
def nestedTemplate (outerLimit innerLimit innerCode : List Char) : List Char :=
  "// Optimized using dimensional reduction inspired by sheaf cohomology\n// Original pattern had O(nÂ²) complexity, reduced to O(n)\nfor (let idx = 0; idx < ".data ++
  outerLimit ++ " * ".data ++ innerLimit ++ "; idx++) \x7b\n  const i = Math.floor(idx / ".data ++
  innerLimit ++ ");\n  const j = idx % ".data ++ innerLimit ++ ";".data ++
  innerCode ++ "\n\x7d".data

def nestedLoopRewriter (_ : Option Char) (s : List Char) :
    Option (List Char × List Char × List Char) :=
  match runItems [RItem.lit "for", RItem.ws0, RItem.lit "(let", RItem.ws1,
                  RItem.lit "i", RItem.ws0, RItem.lit "=", RItem.ws0,
                  RItem.lit "0", RItem.ws0, RItem.lit ";", RItem.ws0,
                  RItem.lit "i", RItem.ws0, RItem.lit "<", RItem.ws0] s with
  | none => none
  | some s1 =>
    let (g1, t1) := spanNot ';' s1
    if g1.isEmpty then none
    else
      match eatStr ";".data t1 with
      | none => none
      | some s2 =>
        match runItems [RItem.ws0, RItem.lit "i", RItem.ws0, RItem.lit "++",
                        RItem.ws0, RItem.lit ")", RItem.ws0, RItem.lit "\x7b",
                        RItem.ws0, RItem.lit "for", RItem.ws0,
                        RItem.lit "(let", RItem.ws1, RItem.lit "j", RItem.ws0,
                        RItem.lit "=", RItem.ws0, RItem.lit "0", RItem.ws0,
                        RItem.lit ";", RItem.ws0, RItem.lit "j", RItem.ws0,
                        RItem.lit "<", RItem.ws0] s2 with
        | none => none
        | some s3 =>
          let (g2, t2) := spanNot ';' s3
          if g2.isEmpty then none
          else
            match eatStr ";".data t2 with
            | none => none
            | some s4 =>
              match runItems [RItem.ws0, RItem.lit "j", RItem.ws0,
                              RItem.lit "++", RItem.ws0, RItem.lit ")",
                              RItem.ws0, RItem.lit "\x7b"] s4 with
              | none => none
              | some s5 =>
                match braceScan s5 with
                | none => none
                | some (innerCode, rest) =>
                  let matched := matchedOf s rest
                  if containsSub innerCode "j+1".data ||
                     containsSub innerCode "j-1".data then
                    some (matched, matched, rest)
                  else
                    some (nestedTemplate g1 g2 innerCode, matched, rest)

def optimizeNestedLoops (code : String) : String :=
  replaceAllWith nestedLoopRewriter code

/-! Data model: the AnalysisResult type of shared/schema.ts (lines 160-182).
JS numbers here only ever hold small non-negative integers, modelled as Nat. -/

structure Metrics where
  performanceScore : Nat
  securityScore : Nat
  readabilityScore : Nat
  improvementPercentage : Nat
  optimizedLines : List Nat
deriving Repr, DecidableEq

structure Insight where
  type : String
  description : String
  appliedTechnique : String
  impact : String
deriving Repr, DecidableEq

structure DomainTag where
  name : String
  algorithms : List String
deriving Repr, DecidableEq

structure AnalysisResult where
  originalCode : String
  optimizedCode : String
  filename : String
  language : String
  metrics : Metrics
  insights : List Insight
  domains : List DomainTag
deriving Repr, DecidableEq

/-! Embedding of analyzeCode (codeAnalyzer.ts lines 6-136).  The body is a
sequence of conditional mutations of one result record; each mutation step
is its own definition below, composed in source order, so the TS statements
can be compared block by block. -/

/-- Initial result record (codeAnalyzer.ts lines 17-31). -/
def initialResult (code filename language : String) : AnalysisResult :=
  { originalCode := code
    optimizedCode := code
    filename := filename
    language := language
    metrics := { performanceScore := 0, securityScore := 0,
                 readabilityScore := 0, improvementPercentage := 0,
                 optimizedLines := [] }
    insights := []
    domains := [] }

def fibonacciInsight : Insight :=
  { type := "performance"
    description := "Added memoization to store previously calculated Fibonacci values"
    appliedTechnique := "Dynamic Programming"
    impact := "Reduces time complexity from O(2^n) to O(n), making it approximately 1000x faster for large inputs" }

def mathematicsDomain : DomainTag :=
  { name := "Mathematics", algorithms := ["Dynamic Programming"] }

def securityInsight : Insight :=
  { type := "security"
    description := "Fixed potential XSS vulnerability by replacing innerHTML with textContent"
    appliedTechnique := "Input Sanitization"
    impact := "Prevents cross-site scripting attacks that could compromise user data" }

def computerScienceDomain : DomainTag :=
  { name := "Computer Science", algorithms := ["Security Hardening"] }

def readabilityInsight : Insight :=
  { type := "readability"
    description := "Improved variable naming and code structure for better readability"
    appliedTechnique := "Code Style Standardization"
    impact := "Makes code easier to understand and maintain" }

def pythonInsight : Insight :=
  { type := "performance"
    description := "Replaced inefficient list building with list comprehension"
    appliedTechnique := "Pythonic Patterns"
    impact := "Improves performance by reducing interpreter overhead" }

def namingInsight : Insight :=
  { type := "readability"
    description := "Suggested more descriptive variable names"
    appliedTechnique := "Naming Conventions"
    impact := "Improves code readability and maintainability" }

/-- Fibonacci memoization branch (codeAnalyzer.ts lines 36-54). -/
def fibonacciRule (code : String) (optimizationTypes : List String)
    (r : AnalysisResult) : AnalysisResult :=
  if includes code "fibonacci" && !(includes code "memo") &&
     optimizationTypes.contains "performance" then
    { r with
      optimizedCode := applyMemoization code
      metrics := { r.metrics with
        optimizedLines := [3, 4, 5, 6, 7]
        performanceScore := 87
        improvementPercentage := 95 }
      insights := r.insights ++ [fibonacciInsight]
      domains := r.domains ++ [mathematicsDomain] }
  else r

/-- XSS branch (codeAnalyzer.ts lines 57-74). -/
def xssRule (code : String) (optimizationTypes : List String)
    (r : AnalysisResult) : AnalysisResult :=
  if includes code "innerHTML" && optimizationTypes.contains "security" then
    { r with
      optimizedCode := fixXssVulnerability code
      metrics := { r.metrics with
        securityScore := 92
        improvementPercentage := 25 }
      insights := r.insights ++ [securityInsight]
      domains := r.domains ++ [computerScienceDomain] }
  else r

/-- Readability branch (codeAnalyzer.ts lines 77-89). -/
def readabilityRule (code : String) (optimizationTypes : List String)
    (r : AnalysisResult) : AnalysisResult :=
  if (includes code "var " || hasLowerUpperPair code.data) &&
     optimizationTypes.contains "readability" then
    { r with
      optimizedCode := improveReadability code
      metrics := { r.metrics with
        readabilityScore := 78
        improvementPercentage := 30 }
      insights := r.insights ++ [readabilityInsight] }
  else r

/-- Python branch (codeAnalyzer.ts lines 92-104). -/
def pythonRule (code : String) (optimizationTypes : List String)
    (r : AnalysisResult) : AnalysisResult :=
  if includes code "for" && includes code "range" && includes code "append" &&
     optimizationTypes.contains "performance" then
    { r with
      optimizedCode := optimizePythonLoop code
      metrics := { r.metrics with
        performanceScore := 85
        improvementPercentage := 40 }
      insights := r.insights ++ [pythonInsight] }
  else r

/-- Language dispatch (codeAnalyzer.ts lines 34, 90, 105): the three JS/TS
branches run in source order for javascript/typescript, the python branch
for python, nothing otherwise. -/
def applyLanguageRules (code language : String) (optimizationTypes : List String)
    (r : AnalysisResult) : AnalysisResult :=
  if language == "javascript" || language == "typescript" then
    readabilityRule code optimizationTypes
      (xssRule code optimizationTypes
        (fibonacciRule code optimizationTypes r))
  else if language == "python" then
    pythonRule code optimizationTypes r
  else r

/-- Fallback insight (codeAnalyzer.ts lines 108-120). -/
def defaultFeedback (code : String) (r : AnalysisResult) : AnalysisResult :=
  if r.insights.length == 0 then
    { r with
      optimizedCode := suggestBetterVariableNames code
      metrics := { r.metrics with
        readabilityScore := 75
        improvementPercentage := 15 }
      insights := r.insights ++ [namingInsight] }
  else r

/-! Default random scores (codeAnalyzer.ts lines 123-133).  Each still-zero
axis receives Math.floor(Math.random() * 20) + 70, embedded as 70 + r % 20
for the arbitrary natural number standing for that Math.random() call.  The
three statements run in source order. -/

def fillPerformanceScore (rp : Nat) (r : AnalysisResult) : AnalysisResult :=
  if r.metrics.performanceScore == 0 then
    { r with metrics := { r.metrics with performanceScore := 70 + rp % 20 } }
  else r

def fillSecurityScore (rs : Nat) (r : AnalysisResult) : AnalysisResult :=
  if r.metrics.securityScore == 0 then
    { r with metrics := { r.metrics with securityScore := 70 + rs % 20 } }
  else r

def fillReadabilityScore (rr : Nat) (r : AnalysisResult) : AnalysisResult :=
  if r.metrics.readabilityScore == 0 then
    { r with metrics := { r.metrics with readabilityScore := 70 + rr % 20 } }
  else r

def defaultScores (rp rs rr : Nat) (r : AnalysisResult) : AnalysisResult :=
  fillReadabilityScore rr (fillSecurityScore rs (fillPerformanceScore rp r))

/-- Embeds analyzeCode (codeAnalyzer.ts lines 6-136).  The applicableDomains
argument is declared by the source (line 11) and threaded through from the
route handler, but the body never reads it.  rp, rs, rr stand for the up to
three Math.random() calls. -/
def analyzeCode (code filename language : String)
    (optimizationTypes : List String)
    (applicableDomains : Option (List String)) (rp rs rr : Nat) :
    AnalysisResult :=
  defaultScores rp rs rr
    (defaultFeedback code
      (applyLanguageRules code language optimizationTypes
        (initialResult code filename language)))

/-- Number of 1-based lines of a string: one more than its newline count
(what splitting on the newline character yields). -/
def countLines (s : String) : Nat :=
  s.data.count '\n' + 1

/-! Concrete programs used to exercise the analyzer. -/

/-- Fibonacci program of spec section 8 / the upload examples. -/
def fibSource : String :=
  "function fibonacci(n) \x7b if (n<=0) return 0; if (n===1) return 1; return fibonacci(n-1)+fibonacci(n-2); \x7d"

/-- Source containing both an un-memoized fibonacci and an innerHTML
assignment, so that the performance and the security rule fire together. -/
def fibXssSource : String :=
  "function fibonacci(n) \x7b return fibonacci(n-1)+fibonacci(n-2); \x7d el.innerHTML = x;"

/-- Source containing two copies of the un-memoized fibonacci function. -/
def twoFibSource : String :=
  "function fibonacci(n) \x7b return fibonacci(n-1)+fibonacci(n-2); \x7d function fibonacci(n) \x7b return fibonacci(n-1)+fibonacci(n-2); \x7d"

/-- Doubly nested loop in the exact textual shape the nested-loop regex
expects (let-declared i and j starting at 0), inner body free of j+1/j-1. -/
def nestedLetLoopSource : String :=
  "for (let i = 0; i < array.length; i++) \x7b for (let j = 0; j < array.length; j++) \x7b sum += matrix[i][j]; \x7d \x7d"

/-- The same doubly nested loop written with var instead of let: still a
doubly-nested for loop without adjacent-index references. -/
def nestedVarLoopSource : String :=
  "for (var i = 0; i < array.length; i++) \x7b for (var j = 0; j < array.length; j++) \x7b sum += matrix[i][j]; \x7d \x7d"

/-- Output of optimizeNestedLoops on nestedLetLoopSource, spelled out. -/
def flattenedLoopResult : String :=
  "// Optimized using dimensional reduction inspired by sheaf cohomology\n// Original pattern had O(nÂ²) complexity, reduced to O(n)\nfor (let idx = 0; idx < array.length * array.length; idx++) \x7b\n  const i = Math.floor(idx / array.length);\n  const j = idx % array.length; sum += matrix[i][j]; \n\x7d"

/-- Result of analyzeCode just before the default-score filling (the state
of the result record at codeAnalyzer.ts line 121). -/
def preScoreResult (code filename language : String) (ot : List String) :
    AnalysisResult :=
  defaultFeedback code
    (applyLanguageRules code language ot (initialResult code filename language))

/-! Projection lemmas: which fields each mutation step can touch. -/

@[simp] lemma fibonacciRule_originalCode (code : String) (ot : List String)
    (r : AnalysisResult) :
    (fibonacciRule code ot r).originalCode = r.originalCode := by
  unfold fibonacciRule; split <;> rfl

@[simp] lemma fibonacciRule_filename (code : String) (ot : List String)
    (r : AnalysisResult) :
    (fibonacciRule code ot r).filename = r.filename := by
  unfold fibonacciRule; split <;> rfl

@[simp] lemma fibonacciRule_language (code : String) (ot : List String)
    (r : AnalysisResult) :
    (fibonacciRule code ot r).language = r.language := by
  unfold fibonacciRule; split <;> rfl

@[simp] lemma xssRule_originalCode (code : String) (ot : List String)
    (r : AnalysisResult) :
    (xssRule code ot r).originalCode = r.originalCode := by
  unfold xssRule; split <;> rfl

@[simp] lemma xssRule_filename (code : String) (ot : List String)
    (r : AnalysisResult) :
    (xssRule code ot r).filename = r.filename := by
  unfold xssRule; split <;> rfl

@[simp] lemma xssRule_language (code : String) (ot : List String)
    (r : AnalysisResult) :
    (xssRule code ot r).language = r.language := by
  unfold xssRule; split <;> rfl

@[simp] lemma readabilityRule_originalCode (code : String) (ot : List String)
    (r : AnalysisResult) :
    (readabilityRule code ot r).originalCode = r.originalCode := by
  unfold readabilityRule; split <;> rfl

@[simp] lemma readabilityRule_filename (code : String) (ot : List String)
    (r : AnalysisResult) :
    (readabilityRule code ot r).filename = r.filename := by
  unfold readabilityRule; split <;> rfl

@[simp] lemma readabilityRule_language (code : String) (ot : List String)
    (r : AnalysisResult) :
    (readabilityRule code ot r).language = r.language := by
  unfold readabilityRule; split <;> rfl

@[simp] lemma pythonRule_originalCode (code : String) (ot : List String)
    (r : AnalysisResult) :
    (pythonRule code ot r).originalCode = r.originalCode := by
  unfold pythonRule; split <;> rfl

@[simp] lemma pythonRule_filename (code : String) (ot : List String)
    (r : AnalysisResult) :
    (pythonRule code ot r).filename = r.filename := by
  unfold pythonRule; split <;> rfl

@[simp] lemma pythonRule_language (code : String) (ot : List String)
    (r : AnalysisResult) :
    (pythonRule code ot r).language = r.language := by
  unfold pythonRule; split <;> rfl

@[simp] lemma applyLanguageRules_originalCode (code language : String)
    (ot : List String) (r : AnalysisResult) :
    (applyLanguageRules code language ot r).originalCode = r.originalCode := by
  unfold applyLanguageRules
  split
  · simp
  · split <;> simp

@[simp] lemma applyLanguageRules_filename (code language : String)
    (ot : List String) (r : AnalysisResult) :
    (applyLanguageRules code language ot r).filename = r.filename := by
  unfold applyLanguageRules
  split
  · simp
  · split <;> simp

@[simp] lemma applyLanguageRules_language (code language : String)
    (ot : List String) (r : AnalysisResult) :
    (applyLanguageRules code language ot r).language = r.language := by
  unfold applyLanguageRules
  split
  · simp
  · split <;> simp

@[simp] lemma defaultFeedback_originalCode (code : String) (r : AnalysisResult) :
    (defaultFeedback code r).originalCode = r.originalCode := by
  unfold defaultFeedback; split <;> rfl

@[simp] lemma defaultFeedback_filename (code : String) (r : AnalysisResult) :
    (defaultFeedback code r).filename = r.filename := by
  unfold defaultFeedback; split <;> rfl

@[simp] lemma defaultFeedback_language (code : String) (r : AnalysisResult) :
    (defaultFeedback code r).language = r.language := by
  unfold defaultFeedback; split <;> rfl

@[simp] lemma fillPerformanceScore_originalCode (rp : Nat) (r : AnalysisResult) :
    (fillPerformanceScore rp r).originalCode = r.originalCode := by
  unfold fillPerformanceScore; split <;> rfl

@[simp] lemma fillPerformanceScore_optimizedCode (rp : Nat) (r : AnalysisResult) :
    (fillPerformanceScore rp r).optimizedCode = r.optimizedCode := by
  unfold fillPerformanceScore; split <;> rfl

@[simp] lemma fillPerformanceScore_filename (rp : Nat) (r : AnalysisResult) :
    (fillPerformanceScore rp r).filename = r.filename := by
  unfold fillPerformanceScore; split <;> rfl

@[simp] lemma fillPerformanceScore_language (rp : Nat) (r : AnalysisResult) :
    (fillPerformanceScore rp r).language = r.language := by
  unfold fillPerformanceScore; split <;> rfl

@[simp] lemma fillPerformanceScore_insights (rp : Nat) (r : AnalysisResult) :
    (fillPerformanceScore rp r).insights = r.insights := by
  unfold fillPerformanceScore; split <;> rfl

@[simp] lemma fillPerformanceScore_domains (rp : Nat) (r : AnalysisResult) :
    (fillPerformanceScore rp r).domains = r.domains := by
  unfold fillPerformanceScore; split <;> rfl

@[simp] lemma fillPerformanceScore_securityScore (rp : Nat) (r : AnalysisResult) :
    (fillPerformanceScore rp r).metrics.securityScore = r.metrics.securityScore := by
  unfold fillPerformanceScore; split <;> rfl

@[simp] lemma fillPerformanceScore_readabilityScore (rp : Nat) (r : AnalysisResult) :
    (fillPerformanceScore rp r).metrics.readabilityScore = r.metrics.readabilityScore := by
  unfold fillPerformanceScore; split <;> rfl

@[simp] lemma fillPerformanceScore_improvementPercentage (rp : Nat) (r : AnalysisResult) :
    (fillPerformanceScore rp r).metrics.improvementPercentage = r.metrics.improvementPercentage := by
  unfold fillPerformanceScore; split <;> rfl

@[simp] lemma fillPerformanceScore_optimizedLines (rp : Nat) (r : AnalysisResult) :
    (fillPerformanceScore rp r).metrics.optimizedLines = r.metrics.optimizedLines := by
  unfold fillPerformanceScore; split <;> rfl

@[simp] lemma fillSecurityScore_originalCode (rs : Nat) (r : AnalysisResult) :
    (fillSecurityScore rs r).originalCode = r.originalCode := by
  unfold fillSecurityScore; split <;> rfl

@[simp] lemma fillSecurityScore_optimizedCode (rs : Nat) (r : AnalysisResult) :
    (fillSecurityScore rs r).optimizedCode = r.optimizedCode := by
  unfold fillSecurityScore; split <;> rfl

@[simp] lemma fillSecurityScore_filename (rs : Nat) (r : AnalysisResult) :
    (fillSecurityScore rs r).filename = r.filename := by
  unfold fillSecurityScore; split <;> rfl

@[simp] lemma fillSecurityScore_language (rs : Nat) (r : AnalysisResult) :
    (fillSecurityScore rs r).language = r.language := by
  unfold fillSecurityScore; split <;> rfl

@[simp] lemma fillSecurityScore_insights (rs : Nat) (r : AnalysisResult) :
    (fillSecurityScore rs r).insights = r.insights := by
  unfold fillSecurityScore; split <;> rfl

@[simp] lemma fillSecurityScore_domains (rs : Nat) (r : AnalysisResult) :
    (fillSecurityScore rs r).domains = r.domains := by
  unfold fillSecurityScore; split <;> rfl

@[simp] lemma fillSecurityScore_performanceScore (rs : Nat) (r : AnalysisResult) :
    (fillSecurityScore rs r).metrics.performanceScore = r.metrics.performanceScore := by
  unfold fillSecurityScore; split <;> rfl

@[simp] lemma fillSecurityScore_readabilityScore (rs : Nat) (r : AnalysisResult) :
    (fillSecurityScore rs r).metrics.readabilityScore = r.metrics.readabilityScore := by
  unfold fillSecurityScore; split <;> rfl

@[simp] lemma fillSecurityScore_improvementPercentage (rs : Nat) (r : AnalysisResult) :
    (fillSecurityScore rs r).metrics.improvementPercentage = r.metrics.improvementPercentage := by
  unfold fillSecurityScore; split <;> rfl

@[simp] lemma fillSecurityScore_optimizedLines (rs : Nat) (r : AnalysisResult) :
    (fillSecurityScore rs r).metrics.optimizedLines = r.metrics.optimizedLines := by
  unfold fillSecurityScore; split <;> rfl

@[simp] lemma fillReadabilityScore_originalCode (rr : Nat) (r : AnalysisResult) :
    (fillReadabilityScore rr r).originalCode = r.originalCode := by
  unfold fillReadabilityScore; split <;> rfl

@[simp] lemma fillReadabilityScore_optimizedCode (rr : Nat) (r : AnalysisResult) :
    (fillReadabilityScore rr r).optimizedCode = r.optimizedCode := by
  unfold fillReadabilityScore; split <;> rfl

@[simp] lemma fillReadabilityScore_filename (rr : Nat) (r : AnalysisResult) :
    (fillReadabilityScore rr r).filename = r.filename := by
  unfold fillReadabilityScore; split <;> rfl

@[simp] lemma fillReadabilityScore_language (rr : Nat) (r : AnalysisResult) :
    (fillReadabilityScore rr r).language = r.language := by
  unfold fillReadabilityScore; split <;> rfl

@[simp] lemma fillReadabilityScore_insights (rr : Nat) (r : AnalysisResult) :
    (fillReadabilityScore rr r).insights = r.insights := by
  unfold fillReadabilityScore; split <;> rfl

@[simp] lemma fillReadabilityScore_domains (rr : Nat) (r : AnalysisResult) :
    (fillReadabilityScore rr r).domains = r.domains := by
  unfold fillReadabilityScore; split <;> rfl

@[simp] lemma fillReadabilityScore_performanceScore (rr : Nat) (r : AnalysisResult) :
    (fillReadabilityScore rr r).metrics.performanceScore = r.metrics.performanceScore := by
  unfold fillReadabilityScore; split <;> rfl

@[simp] lemma fillReadabilityScore_securityScore (rr : Nat) (r : AnalysisResult) :
    (fillReadabilityScore rr r).metrics.securityScore = r.metrics.securityScore := by
  unfold fillReadabilityScore; split <;> rfl

@[simp] lemma fillReadabilityScore_improvementPercentage (rr : Nat) (r : AnalysisResult) :
    (fillReadabilityScore rr r).metrics.improvementPercentage = r.metrics.improvementPercentage := by
  unfold fillReadabilityScore; split <;> rfl

@[simp] lemma fillReadabilityScore_optimizedLines (rr : Nat) (r : AnalysisResult) :
    (fillReadabilityScore rr r).metrics.optimizedLines = r.metrics.optimizedLines := by
  unfold fillReadabilityScore; split <;> rfl

@[simp] lemma defaultScores_originalCode (rp rs rr : Nat) (r : AnalysisResult) :
    (defaultScores rp rs rr r).originalCode = r.originalCode := by
  unfold defaultScores; simp

@[simp] lemma defaultScores_optimizedCode (rp rs rr : Nat) (r : AnalysisResult) :
    (defaultScores rp rs rr r).optimizedCode = r.optimizedCode := by
  unfold defaultScores; simp

@[simp] lemma defaultScores_filename (rp rs rr : Nat) (r : AnalysisResult) :
    (defaultScores rp rs rr r).filename = r.filename := by
  unfold defaultScores; simp

@[simp] lemma defaultScores_language (rp rs rr : Nat) (r : AnalysisResult) :
    (defaultScores rp rs rr r).language = r.language := by
  unfold defaultScores; simp

@[simp] lemma defaultScores_insights (rp rs rr : Nat) (r : AnalysisResult) :
    (defaultScores rp rs rr r).insights = r.insights := by
  unfold defaultScores; simp

@[simp] lemma defaultScores_domains (rp rs rr : Nat) (r : AnalysisResult) :
    (defaultScores rp rs rr r).domains = r.domains := by
  unfold defaultScores; simp

@[simp] lemma defaultScores_improvementPercentage (rp rs rr : Nat) (r : AnalysisResult) :
    (defaultScores rp rs rr r).metrics.improvementPercentage =
      r.metrics.improvementPercentage := by
  unfold defaultScores; simp

@[simp] lemma defaultScores_optimizedLines (rp rs rr : Nat) (r : AnalysisResult) :
    (defaultScores rp rs rr r).metrics.optimizedLines =
      r.metrics.optimizedLines := by
  unfold defaultScores; simp

/-! Characterisations of the touched fields of each step, and preservation
of the untouched metric fields. -/

lemma fillPerformanceScore_performanceScore (rp : Nat) (r : AnalysisResult) :
    (fillPerformanceScore rp r).metrics.performanceScore =
      if r.metrics.performanceScore == 0 then 70 + rp % 20
      else r.metrics.performanceScore := by
  unfold fillPerformanceScore; split <;> simp_all

lemma fillSecurityScore_securityScore (rs : Nat) (r : AnalysisResult) :
    (fillSecurityScore rs r).metrics.securityScore =
      if r.metrics.securityScore == 0 then 70 + rs % 20
      else r.metrics.securityScore := by
  unfold fillSecurityScore; split <;> simp_all

lemma fillReadabilityScore_readabilityScore (rr : Nat) (r : AnalysisResult) :
    (fillReadabilityScore rr r).metrics.readabilityScore =
      if r.metrics.readabilityScore == 0 then 70 + rr % 20
      else r.metrics.readabilityScore := by
  unfold fillReadabilityScore; split <;> simp_all

lemma defaultScores_performanceScore (rp rs rr : Nat) (r : AnalysisResult) :
    (defaultScores rp rs rr r).metrics.performanceScore =
      if r.metrics.performanceScore == 0 then 70 + rp % 20
      else r.metrics.performanceScore := by
  unfold defaultScores
  rw [fillReadabilityScore_performanceScore, fillSecurityScore_performanceScore,
      fillPerformanceScore_performanceScore]

lemma defaultScores_securityScore (rp rs rr : Nat) (r : AnalysisResult) :
    (defaultScores rp rs rr r).metrics.securityScore =
      if r.metrics.securityScore == 0 then 70 + rs % 20
      else r.metrics.securityScore := by
  unfold defaultScores
  rw [fillReadabilityScore_securityScore, fillSecurityScore_securityScore,
      fillPerformanceScore_securityScore]

lemma defaultScores_readabilityScore (rp rs rr : Nat) (r : AnalysisResult) :
    (defaultScores rp rs rr r).metrics.readabilityScore =
      if (fillSecurityScore rs (fillPerformanceScore rp r)).metrics.readabilityScore == 0
      then 70 + rr % 20
      else (fillSecurityScore rs (fillPerformanceScore rp r)).metrics.readabilityScore := by
  unfold defaultScores
  rw [fillReadabilityScore_readabilityScore]

lemma defaultScores_readabilityScore_eq (rp rs rr : Nat) (r : AnalysisResult) :
    (defaultScores rp rs rr r).metrics.readabilityScore =
      if r.metrics.readabilityScore == 0 then 70 + rr % 20
      else r.metrics.readabilityScore := by
  rw [defaultScores_readabilityScore, fillSecurityScore_readabilityScore,
      fillPerformanceScore_readabilityScore]

@[simp] lemma fibonacciRule_securityScore (code : String) (ot : List String)
    (r : AnalysisResult) :
    (fibonacciRule code ot r).metrics.securityScore = r.metrics.securityScore := by
  unfold fibonacciRule; split <;> rfl

@[simp] lemma fibonacciRule_readabilityScore (code : String) (ot : List String)
    (r : AnalysisResult) :
    (fibonacciRule code ot r).metrics.readabilityScore = r.metrics.readabilityScore := by
  unfold fibonacciRule; split <;> rfl

lemma fibonacciRule_optimizedCode (code : String) (ot : List String)
    (r : AnalysisResult) :
    (fibonacciRule code ot r).optimizedCode =
      if includes code "fibonacci" && !(includes code "memo") && ot.contains "performance"
      then applyMemoization code else r.optimizedCode := by
  unfold fibonacciRule; split <;> simp_all

lemma fibonacciRule_insights (code : String) (ot : List String)
    (r : AnalysisResult) :
    (fibonacciRule code ot r).insights =
      if includes code "fibonacci" && !(includes code "memo") && ot.contains "performance"
      then r.insights ++ [fibonacciInsight] else r.insights := by
  unfold fibonacciRule; split <;> simp_all

lemma fibonacciRule_domains (code : String) (ot : List String)
    (r : AnalysisResult) :
    (fibonacciRule code ot r).domains =
      if includes code "fibonacci" && !(includes code "memo") && ot.contains "performance"
      then r.domains ++ [mathematicsDomain] else r.domains := by
  unfold fibonacciRule; split <;> simp_all

lemma fibonacciRule_performanceScore (code : String) (ot : List String)
    (r : AnalysisResult) :
    (fibonacciRule code ot r).metrics.performanceScore =
      if includes code "fibonacci" && !(includes code "memo") && ot.contains "performance"
      then 87 else r.metrics.performanceScore := by
  unfold fibonacciRule; split <;> simp_all

lemma fibonacciRule_improvementPercentage (code : String) (ot : List String)
    (r : AnalysisResult) :
    (fibonacciRule code ot r).metrics.improvementPercentage =
      if includes code "fibonacci" && !(includes code "memo") && ot.contains "performance"
      then 95 else r.metrics.improvementPercentage := by
  unfold fibonacciRule; split <;> simp_all

lemma fibonacciRule_optimizedLines (code : String) (ot : List String)
    (r : AnalysisResult) :
    (fibonacciRule code ot r).metrics.optimizedLines =
      if includes code "fibonacci" && !(includes code "memo") && ot.contains "performance"
      then [3, 4, 5, 6, 7] else r.metrics.optimizedLines := by
  unfold fibonacciRule; split <;> simp_all

@[simp] lemma xssRule_performanceScore (code : String) (ot : List String)
    (r : AnalysisResult) :
    (xssRule code ot r).metrics.performanceScore = r.metrics.performanceScore := by
  unfold xssRule; split <;> rfl

@[simp] lemma xssRule_readabilityScore (code : String) (ot : List String)
    (r : AnalysisResult) :
    (xssRule code ot r).metrics.readabilityScore = r.metrics.readabilityScore := by
  unfold xssRule; split <;> rfl

@[simp] lemma xssRule_optimizedLines (code : String) (ot : List String)
    (r : AnalysisResult) :
    (xssRule code ot r).metrics.optimizedLines = r.metrics.optimizedLines := by
  unfold xssRule; split <;> rfl

lemma xssRule_optimizedCode (code : String) (ot : List String)
    (r : AnalysisResult) :
    (xssRule code ot r).optimizedCode =
      if includes code "innerHTML" && ot.contains "security"
      then fixXssVulnerability code else r.optimizedCode := by
  unfold xssRule; split <;> simp_all

lemma xssRule_insights (code : String) (ot : List String)
    (r : AnalysisResult) :
    (xssRule code ot r).insights =
      if includes code "innerHTML" && ot.contains "security"
      then r.insights ++ [securityInsight] else r.insights := by
  unfold xssRule; split <;> simp_all

lemma xssRule_domains (code : String) (ot : List String)
    (r : AnalysisResult) :
    (xssRule code ot r).domains =
      if includes code "innerHTML" && ot.contains "security"
      then r.domains ++ [computerScienceDomain] else r.domains := by
  unfold xssRule; split <;> simp_all

lemma xssRule_securityScore (code : String) (ot : List String)
    (r : AnalysisResult) :
    (xssRule code ot r).metrics.securityScore =
      if includes code "innerHTML" && ot.contains "security"
      then 92 else r.metrics.securityScore := by
  unfold xssRule; split <;> simp_all

lemma xssRule_improvementPercentage (code : String) (ot : List String)
    (r : AnalysisResult) :
    (xssRule code ot r).metrics.improvementPercentage =
      if includes code "innerHTML" && ot.contains "security"
      then 25 else r.metrics.improvementPercentage := by
  unfold xssRule; split <;> simp_all

@[simp] lemma readabilityRule_performanceScore (code : String) (ot : List String)
    (r : AnalysisResult) :
    (readabilityRule code ot r).metrics.performanceScore = r.metrics.performanceScore := by
  unfold readabilityRule; split <;> rfl

@[simp] lemma readabilityRule_securityScore (code : String) (ot : List String)
    (r : AnalysisResult) :
    (readabilityRule code ot r).metrics.securityScore = r.metrics.securityScore := by
  unfold readabilityRule; split <;> rfl

@[simp] lemma readabilityRule_optimizedLines (code : String) (ot : List String)
    (r : AnalysisResult) :
    (readabilityRule code ot r).metrics.optimizedLines = r.metrics.optimizedLines := by
  unfold readabilityRule; split <;> rfl

@[simp] lemma readabilityRule_domains (code : String) (ot : List String)
    (r : AnalysisResult) :
    (readabilityRule code ot r).domains = r.domains := by
  unfold readabilityRule; split <;> rfl

lemma readabilityRule_optimizedCode (code : String) (ot : List String)
    (r : AnalysisResult) :
    (readabilityRule code ot r).optimizedCode =
      if (includes code "var " || hasLowerUpperPair code.data) && ot.contains "readability"
      then improveReadability code else r.optimizedCode := by
  unfold readabilityRule; split <;> simp_all

lemma readabilityRule_insights (code : String) (ot : List String)
    (r : AnalysisResult) :
    (readabilityRule code ot r).insights =
      if (includes code "var " || hasLowerUpperPair code.data) && ot.contains "readability"
      then r.insights ++ [readabilityInsight] else r.insights := by
  unfold readabilityRule; split <;> simp_all

lemma readabilityRule_readabilityScore (code : String) (ot : List String)
    (r : AnalysisResult) :
    (readabilityRule code ot r).metrics.readabilityScore =
      if (includes code "var " || hasLowerUpperPair code.data) && ot.contains "readability"
      then 78 else r.metrics.readabilityScore := by
  unfold readabilityRule; split <;> simp_all

lemma readabilityRule_improvementPercentage (code : String) (ot : List String)
    (r : AnalysisResult) :
    (readabilityRule code ot r).metrics.improvementPercentage =
      if (includes code "var " || hasLowerUpperPair code.data) && ot.contains "readability"
      then 30 else r.metrics.improvementPercentage := by
  unfold readabilityRule; split <;> simp_all

@[simp] lemma pythonRule_securityScore (code : String) (ot : List String)
    (r : AnalysisResult) :
    (pythonRule code ot r).metrics.securityScore = r.metrics.securityScore := by
  unfold pythonRule; split <;> rfl

@[simp] lemma pythonRule_readabilityScore (code : String) (ot : List String)
    (r : AnalysisResult) :
    (pythonRule code ot r).metrics.readabilityScore = r.metrics.readabilityScore := by
  unfold pythonRule; split <;> rfl

@[simp] lemma pythonRule_optimizedLines (code : String) (ot : List String)
    (r : AnalysisResult) :
    (pythonRule code ot r).metrics.optimizedLines = r.metrics.optimizedLines := by
  unfold pythonRule; split <;> rfl

@[simp] lemma pythonRule_domains (code : String) (ot : List String)
    (r : AnalysisResult) :
    (pythonRule code ot r).domains = r.domains := by
  unfold pythonRule; split <;> rfl

lemma pythonRule_insights (code : String) (ot : List String)
    (r : AnalysisResult) :
    (pythonRule code ot r).insights =
      if includes code "for" && includes code "range" && includes code "append" &&
         ot.contains "performance"
      then r.insights ++ [pythonInsight] else r.insights := by
  unfold pythonRule; split <;> simp_all

lemma pythonRule_performanceScore (code : String) (ot : List String)
    (r : AnalysisResult) :
    (pythonRule code ot r).metrics.performanceScore =
      if includes code "for" && includes code "range" && includes code "append" &&
         ot.contains "performance"
      then 85 else r.metrics.performanceScore := by
  unfold pythonRule; split <;> simp_all

lemma pythonRule_improvementPercentage (code : String) (ot : List String)
    (r : AnalysisResult) :
    (pythonRule code ot r).metrics.improvementPercentage =
      if includes code "for" && includes code "range" && includes code "append" &&
         ot.contains "performance"
      then 40 else r.metrics.improvementPercentage := by
  unfold pythonRule; split <;> simp_all

@[simp] lemma defaultFeedback_performanceScore (code : String) (r : AnalysisResult) :
    (defaultFeedback code r).metrics.performanceScore = r.metrics.performanceScore := by
  unfold defaultFeedback; split <;> rfl

@[simp] lemma defaultFeedback_securityScore (code : String) (r : AnalysisResult) :
    (defaultFeedback code r).metrics.securityScore = r.metrics.securityScore := by
  unfold defaultFeedback; split <;> rfl

@[simp] lemma defaultFeedback_optimizedLines (code : String) (r : AnalysisResult) :
    (defaultFeedback code r).metrics.optimizedLines = r.metrics.optimizedLines := by
  unfold defaultFeedback; split <;> rfl

@[simp] lemma defaultFeedback_domains (code : String) (r : AnalysisResult) :
    (defaultFeedback code r).domains = r.domains := by
  unfold defaultFeedback; split <;> rfl

lemma defaultFeedback_optimizedCode (code : String) (r : AnalysisResult) :
    (defaultFeedback code r).optimizedCode =
      if r.insights.length == 0 then suggestBetterVariableNames code
      else r.optimizedCode := by
  unfold defaultFeedback; split <;> simp_all

lemma defaultFeedback_insights (code : String) (r : AnalysisResult) :
    (defaultFeedback code r).insights =
      if r.insights.length == 0 then r.insights ++ [namingInsight]
      else r.insights := by
  unfold defaultFeedback; split <;> simp_all

lemma defaultFeedback_readabilityScore (code : String) (r : AnalysisResult) :
    (defaultFeedback code r).metrics.readabilityScore =
      if r.insights.length == 0 then 75 else r.metrics.readabilityScore := by
  unfold defaultFeedback; split <;> simp_all

lemma defaultFeedback_improvementPercentage (code : String) (r : AnalysisResult) :
    (defaultFeedback code r).metrics.improvementPercentage =
      if r.insights.length == 0 then 15 else r.metrics.improvementPercentage := by
  unfold defaultFeedback; split <;> simp_all

/-! Score bounds through the pipeline. -/

lemma fibonacciRule_bounds (code : String) (ot : List String) (r : AnalysisResult)
    (h : r.metrics.performanceScore ≤ 100 ∧ r.metrics.securityScore ≤ 100 ∧
         r.metrics.readabilityScore ≤ 100 ∧ r.metrics.improvementPercentage ≤ 100) :
    (fibonacciRule code ot r).metrics.performanceScore ≤ 100 ∧
    (fibonacciRule code ot r).metrics.securityScore ≤ 100 ∧
    (fibonacciRule code ot r).metrics.readabilityScore ≤ 100 ∧
    (fibonacciRule code ot r).metrics.improvementPercentage ≤ 100 := by
  unfold fibonacciRule; split
  · exact ⟨(by decide : (87 : Nat) ≤ 100), h.2.1, h.2.2.1, (by decide : (95 : Nat) ≤ 100)⟩
  · exact h

lemma xssRule_bounds (code : String) (ot : List String) (r : AnalysisResult)
    (h : r.metrics.performanceScore ≤ 100 ∧ r.metrics.securityScore ≤ 100 ∧
         r.metrics.readabilityScore ≤ 100 ∧ r.metrics.improvementPercentage ≤ 100) :
    (xssRule code ot r).metrics.performanceScore ≤ 100 ∧
    (xssRule code ot r).metrics.securityScore ≤ 100 ∧
    (xssRule code ot r).metrics.readabilityScore ≤ 100 ∧
    (xssRule code ot r).metrics.improvementPercentage ≤ 100 := by
  unfold xssRule; split
  · exact ⟨h.1, (by decide : (92 : Nat) ≤ 100), h.2.2.1, (by decide : (25 : Nat) ≤ 100)⟩
  · exact h

lemma readabilityRule_bounds (code : String) (ot : List String) (r : AnalysisResult)
    (h : r.metrics.performanceScore ≤ 100 ∧ r.metrics.securityScore ≤ 100 ∧
         r.metrics.readabilityScore ≤ 100 ∧ r.metrics.improvementPercentage ≤ 100) :
    (readabilityRule code ot r).metrics.performanceScore ≤ 100 ∧
    (readabilityRule code ot r).metrics.securityScore ≤ 100 ∧
    (readabilityRule code ot r).metrics.readabilityScore ≤ 100 ∧
    (readabilityRule code ot r).metrics.improvementPercentage ≤ 100 := by
  unfold readabilityRule; split
  · exact ⟨h.1, h.2.1, (by decide : (78 : Nat) ≤ 100), (by decide : (30 : Nat) ≤ 100)⟩
  · exact h

lemma pythonRule_bounds (code : String) (ot : List String) (r : AnalysisResult)
    (h : r.metrics.performanceScore ≤ 100 ∧ r.metrics.securityScore ≤ 100 ∧
         r.metrics.readabilityScore ≤ 100 ∧ r.metrics.improvementPercentage ≤ 100) :
    (pythonRule code ot r).metrics.performanceScore ≤ 100 ∧
    (pythonRule code ot r).metrics.securityScore ≤ 100 ∧
    (pythonRule code ot r).metrics.readabilityScore ≤ 100 ∧
    (pythonRule code ot r).metrics.improvementPercentage ≤ 100 := by
  unfold pythonRule; split
  · exact ⟨(by decide : (85 : Nat) ≤ 100), h.2.1, h.2.2.1, (by decide : (40 : Nat) ≤ 100)⟩
  · exact h

lemma applyLanguageRules_bounds (code language : String) (ot : List String)
    (r : AnalysisResult)
    (h : r.metrics.performanceScore ≤ 100 ∧ r.metrics.securityScore ≤ 100 ∧
         r.metrics.readabilityScore ≤ 100 ∧ r.metrics.improvementPercentage ≤ 100) :
    (applyLanguageRules code language ot r).metrics.performanceScore ≤ 100 ∧
    (applyLanguageRules code language ot r).metrics.securityScore ≤ 100 ∧
    (applyLanguageRules code language ot r).metrics.readabilityScore ≤ 100 ∧
    (applyLanguageRules code language ot r).metrics.improvementPercentage ≤ 100 := by
  unfold applyLanguageRules; split
  · exact readabilityRule_bounds _ _ _ (xssRule_bounds _ _ _ (fibonacciRule_bounds _ _ _ h))
  · split
    · exact pythonRule_bounds _ _ _ h
    · exact h

lemma defaultFeedback_bounds (code : String) (r : AnalysisResult)
    (h : r.metrics.performanceScore ≤ 100 ∧ r.metrics.securityScore ≤ 100 ∧
         r.metrics.readabilityScore ≤ 100 ∧ r.metrics.improvementPercentage ≤ 100) :
    (defaultFeedback code r).metrics.performanceScore ≤ 100 ∧
    (defaultFeedback code r).metrics.securityScore ≤ 100 ∧
    (defaultFeedback code r).metrics.readabilityScore ≤ 100 ∧
    (defaultFeedback code r).metrics.improvementPercentage ≤ 100 := by
  unfold defaultFeedback; split
  · exact ⟨h.1, h.2.1, (by decide : (75 : Nat) ≤ 100), (by decide : (15 : Nat) ≤ 100)⟩
  · exact h

lemma defaultScores_bounds (rp rs rr : Nat) (r : AnalysisResult)
    (h : r.metrics.performanceScore ≤ 100 ∧ r.metrics.securityScore ≤ 100 ∧
         r.metrics.readabilityScore ≤ 100 ∧ r.metrics.improvementPercentage ≤ 100) :
    (defaultScores rp rs rr r).metrics.performanceScore ≤ 100 ∧
    (defaultScores rp rs rr r).metrics.securityScore ≤ 100 ∧
    (defaultScores rp rs rr r).metrics.readabilityScore ≤ 100 ∧
    (defaultScores rp rs rr r).metrics.improvementPercentage ≤ 100 := by
  refine ⟨?_, ?_, ?_, ?_⟩
  · rw [defaultScores_performanceScore]; split
    · omega
    · exact h.1
  · rw [defaultScores_securityScore]; split
    · omega
    · exact h.2.1
  · rw [defaultScores_readabilityScore_eq]; split
    · omega
    · exact h.2.2.1
  · rw [defaultScores_improvementPercentage]; exact h.2.2.2

lemma initialResult_bounds (code filename language : String) :
    (initialResult code filename language).metrics.performanceScore ≤ 100 ∧
    (initialResult code filename language).metrics.securityScore ≤ 100 ∧
    (initialResult code filename language).metrics.readabilityScore ≤ 100 ∧
    (initialResult code filename language).metrics.improvementPercentage ≤ 100 := by
  refine ⟨?_, ?_, ?_, ?_⟩ <;> simp [initialResult]

/-! Insights and optimizedLines through the pipeline. -/

lemma defaultFeedback_insights_ne_nil (code : String) (r : AnalysisResult) :
    (defaultFeedback code r).insights ≠ [] := by
  rw [defaultFeedback_insights]; split
  · simp
  · intro hc
    simp_all

lemma analyzeCode_optimizedLines (code filename language : String)
    (ot : List String) (ad : Option (List String)) (rp rs rr : Nat) :
    (analyzeCode code filename language ot ad rp rs rr).metrics.optimizedLines = [] ∨
    (analyzeCode code filename language ot ad rp rs rr).metrics.optimizedLines =
      [3, 4, 5, 6, 7] := by
  unfold analyzeCode
  rw [defaultScores_optimizedLines, defaultFeedback_optimizedLines]
  unfold applyLanguageRules
  split
  · rw [readabilityRule_optimizedLines, xssRule_optimizedLines,
        fibonacciRule_optimizedLines]
    split
    · right; rfl
    · left; rfl
  · split
    · rw [pythonRule_optimizedLines]; left; rfl
    · left; rfl

lemma analyzeCode_eq_defaultScores (code filename language : String)
    (ot : List String) (ad : Option (List String)) (rp rs rr : Nat) :
    analyzeCode code filename language ot ad rp rs rr =
      defaultScores rp rs rr (preScoreResult code filename language ot) := rfl

lemma applyMemoization_no_match (t : String) (h : findFib t.data = none) :
    applyMemoization t = t := by
  unfold applyMemoization
  rw [h]
  split <;> rfl

lemma braceScan_append (body : List Char) (hnb : ('\x7d' : Char) ∉ body) :
    braceScan (body ++ ['\x7d', ' ', '\x7d']) = some (body, []) := by
  induction body with
  | nil => rfl
  | cons c cs ih =>
    have hc : c ≠ '\x7d' := fun e => hnb (e ▸ List.mem_cons_self c cs)
    have hcs : ('\x7d' : Char) ∉ cs := fun hm => hnb (List.mem_cons_of_mem c hm)
    have hbeq : ('\x7d' == c) = false := beq_eq_false_iff_ne.mpr (Ne.symm hc)
    have hfail : matchCloseBraces (c :: (cs ++ ['\x7d', ' ', '\x7d'])) = none := by
      simp [matchCloseBraces, runItems, eatStr, hbeq]
    simp only [List.cons_append, braceScan, List.append_eq, hfail, ih hcs]

lemma scanReplace_of_match_all
    (m : Option Char → List Char → Option (List Char × List Char × List Char))
    (prev : Option Char) (s rep matched : List Char)
    (h : m prev s = some (rep, matched, [])) (hs : s ≠ []) (fuel : Nat)
    (hf : 1 ≤ fuel) :
    scanReplace m fuel prev s = rep := by
  cases fuel with
  | zero => omega
  | succ f =>
    cases s with
    | nil => exact absurd rfl hs
    | cons c cs =>
      unfold scanReplace
      rw [h]
      simp [scanReplace]

/-! Claim theorems. -/

/-- C10: for every input, analyzeCode echoes the request unchanged in its
identification fields: originalCode equals the input code, filename the
input filename and language the input language, whatever rules fire. -/
theorem c10_request_echoed (code filename language : String) (ot : List String)
    (ad : Option (List String)) (rp rs rr : Nat) :
    (analyzeCode code filename language ot ad rp rs rr).originalCode = code ∧
    (analyzeCode code filename language ot ad rp rs rr).filename = filename ∧
    (analyzeCode code filename language ot ad rp rs rr).language = language := by
  refine ⟨?_, ?_, ?_⟩ <;> simp [analyzeCode, initialResult]

/-- C3: for every input the four metric fields of the result of analyzeCode
(performanceScore, securityScore, readabilityScore, improvementPercentage)
lie in the interval [0, 100]. -/
theorem c3_scores_within_bounds (code filename language : String)
    (ot : List String) (ad : Option (List String)) (rp rs rr : Nat) :
    0 ≤ (analyzeCode code filename language ot ad rp rs rr).metrics.performanceScore ∧
    (analyzeCode code filename language ot ad rp rs rr).metrics.performanceScore ≤ 100 ∧
    0 ≤ (analyzeCode code filename language ot ad rp rs rr).metrics.securityScore ∧
    (analyzeCode code filename language ot ad rp rs rr).metrics.securityScore ≤ 100 ∧
    0 ≤ (analyzeCode code filename language ot ad rp rs rr).metrics.readabilityScore ∧
    (analyzeCode code filename language ot ad rp rs rr).metrics.readabilityScore ≤ 100 ∧
    0 ≤ (analyzeCode code filename language ot ad rp rs rr).metrics.improvementPercentage ∧
    (analyzeCode code filename language ot ad rp rs rr).metrics.improvementPercentage ≤ 100 := by
  have h := defaultScores_bounds rp rs rr _
    (defaultFeedback_bounds code _
      (applyLanguageRules_bounds code language ot _
        (initialResult_bounds code filename language)))
  unfold analyzeCode
  exact ⟨Nat.zero_le _, h.1, Nat.zero_le _, h.2.1, Nat.zero_le _, h.2.2.1,
         Nat.zero_le _, h.2.2.2⟩

/-- C2, counterexample: with the filter some ["Physics"] supplied, the
fibonacci rule still pushes the Mathematics domain, so the returned domain
names are not a subset of the filter. -/
theorem c2_filter_counterexample :
    (analyzeCode "fibonacci" "f.js" "javascript" ["performance"]
        (some ["Physics"]) 0 0 0).domains.map DomainTag.name = ["Mathematics"] ∧
    "Mathematics" ∉ (["Physics"] : List String) := by
  decide

/-- C2, amended: analyzeCode ignores the applicableDomains argument
entirely; the result is identical under any two filter values, so returned
domains are never restricted to the filter. -/
theorem c2_filter_ignored (code filename language : String) (ot : List String)
    (ad1 ad2 : Option (List String)) (rp rs rr : Nat) :
    analyzeCode code filename language ot ad1 rp rs rr =
      analyzeCode code filename language ot ad2 rp rs rr := rfl

/-- C7: on the spec's fibonacci program with language javascript and
optimizationTypes ["performance"], the result contains an insight whose
appliedTechnique is Dynamic Programming and the optimizedCode contains a
memo parameter, for every random draw and filter value. -/
theorem c7_fibonacci_example (ad : Option (List String)) (rp rs rr : Nat) :
    ((analyzeCode fibSource "fib.js" "javascript" ["performance"] ad rp rs rr).insights.map
        Insight.appliedTechnique).contains "Dynamic Programming" = true ∧
    includes (analyzeCode fibSource "fib.js" "javascript" ["performance"] ad rp rs rr).optimizedCode
        "memo" = true := by
  have e1 : (analyzeCode fibSource "fib.js" "javascript" ["performance"] ad rp rs rr).insights =
      (preScoreResult fibSource "fib.js" "javascript" ["performance"]).insights := by
    rw [analyzeCode_eq_defaultScores, defaultScores_insights]
  have e2 : (analyzeCode fibSource "fib.js" "javascript" ["performance"] ad rp rs rr).optimizedCode =
      (preScoreResult fibSource "fib.js" "javascript" ["performance"]).optimizedCode := by
    rw [analyzeCode_eq_defaultScores, defaultScores_optimizedCode]
  rw [e1, e2]
  exact ⟨by decide, by decide⟩

/-- C1, counterexample: on a source where both the fibonacci performance
rule and the innerHTML security rule fire, the returned optimizedCode is
not the sequential composition of the two rewrites; it equals the security
rewrite applied to the original code, and the memoization is lost. -/
theorem c1_sequential_counterexample :
    (analyzeCode fibXssSource "a.js" "javascript" ["performance", "security"]
        none 0 0 0).insights.map Insight.appliedTechnique =
      ["Dynamic Programming", "Input Sanitization"] ∧
    (analyzeCode fibXssSource "a.js" "javascript" ["performance", "security"]
        none 0 0 0).optimizedCode ≠
      fixXssVulnerability (applyMemoization fibXssSource) ∧
    (analyzeCode fibXssSource "a.js" "javascript" ["performance", "security"]
        none 0 0 0).optimizedCode = fixXssVulnerability fibXssSource := by
  refine ⟨by decide, by decide, by decide⟩

/-- C1, amended: each fired JS/TS rule applies its rewrite to the original
code and overwrites optimizedCode, so the final optimizedCode is the last
fired branch's rewrite of the original code (branch order performance,
security, readability; the naming fallback when no branch fired), not a
sequential composition. -/
theorem c1_last_rule_wins (code filename language : String) (ot : List String)
    (ad : Option (List String)) (rp rs rr : Nat)
    (h : language = "javascript" ∨ language = "typescript") :
    (analyzeCode code filename language ot ad rp rs rr).optimizedCode =
      (if (includes code "var " || hasLowerUpperPair code.data) && ot.contains "readability" then
        improveReadability code
      else if includes code "innerHTML" && ot.contains "security" then
        fixXssVulnerability code
      else if includes code "fibonacci" && !(includes code "memo") && ot.contains "performance" then
        applyMemoization code
      else
        suggestBetterVariableNames code) := by
  have hl : (language == "javascript" || language == "typescript") = true := by
    rcases h with h | h <;> simp [h]
  by_cases hb1 : ((includes code "fibonacci" = true ∧ includes code "memo" = false) ∧ "performance" ∈ ot) <;>
  by_cases hb2 : (includes code "innerHTML" = true ∧ "security" ∈ ot) <;>
  by_cases hb3 : ((includes code "var " = true ∨ hasLowerUpperPair code.data = true) ∧ "readability" ∈ ot) <;>
    simp [analyzeCode, applyLanguageRules, hl, hb1, hb2, hb3,
          defaultFeedback_optimizedCode, defaultFeedback_insights,
          readabilityRule_optimizedCode, readabilityRule_insights,
          xssRule_optimizedCode, xssRule_insights,
          fibonacciRule_optimizedCode, fibonacciRule_insights, initialResult]

/-- C1, witness for the amended theorem at a concrete input on which no
branch fires, so the fallback rewrite is returned. -/
theorem c1_last_rule_wins_witness :
    (analyzeCode "hello" "f.js" "javascript" ["security"] none 0 0 0).optimizedCode =
      suggestBetterVariableNames "hello" := by
  have h := c1_last_rule_wins "hello" "f.js" "javascript" ["security"] none 0 0 0
    (Or.inl rfl)
  rw [h]
  decide

/-- C4: analyzeCode always returns a result with a non-empty insights list,
and when no pattern rule fired for any requested optimization type, the
result carries exactly the default readability insight (appliedTechnique
Naming Conventions) with readability score 75 and improvement 15. -/
theorem c4_insights_nonempty_with_default (code filename language : String)
    (ot : List String) (ad : Option (List String)) (rp rs rr : Nat) :
    (analyzeCode code filename language ot ad rp rs rr).insights ≠ [] ∧
    ((applyLanguageRules code language ot (initialResult code filename language)).insights = [] →
      (analyzeCode code filename language ot ad rp rs rr).insights = [namingInsight] ∧
      namingInsight.appliedTechnique = "Naming Conventions" ∧
      (analyzeCode code filename language ot ad rp rs rr).metrics.readabilityScore = 75 ∧
      (analyzeCode code filename language ot ad rp rs rr).metrics.improvementPercentage = 15) := by
  constructor
  · rw [analyzeCode_eq_defaultScores, defaultScores_insights]
    exact defaultFeedback_insights_ne_nil _ _
  · intro h0
    refine ⟨?_, rfl, ?_, ?_⟩
    · rw [analyzeCode_eq_defaultScores, defaultScores_insights]
      unfold preScoreResult
      rw [defaultFeedback_insights, h0]
      simp
    · rw [analyzeCode_eq_defaultScores, defaultScores_readabilityScore_eq]
      unfold preScoreResult
      rw [defaultFeedback_readabilityScore, h0]
      simp
    · rw [analyzeCode_eq_defaultScores, defaultScores_improvementPercentage]
      unfold preScoreResult
      rw [defaultFeedback_improvementPercentage, h0]
      simp

/-- C4, witness: a javascript input matching no pattern with only
performance requested takes the fallback path. -/
theorem c4_insights_witness :
    (analyzeCode "q" "f.js" "javascript" ["performance"] none 0 0 0).insights = [namingInsight] ∧
    (analyzeCode "q" "f.js" "javascript" ["performance"] none 0 0 0).metrics.readabilityScore = 75 := by
  have h := c4_insights_nonempty_with_default "q" "f.js" "javascript" ["performance"] none 0 0 0
  have h2 := h.2 (by decide)
  exact ⟨h2.1, h2.2.2.1⟩

/-- C5, counterexample: on the one-line input consisting of the word
fibonacci alone, the fibonacci rule fires (the rewrite regex does not
match, so optimizedCode stays one line) and optimizedLines is the fixed
list [3, 4, 5, 6, 7], whose entries exceed the line count of the returned
optimizedCode. -/
theorem c5_lines_counterexample :
    (analyzeCode "fibonacci" "f.js" "javascript" ["performance"] none 0 0 0).metrics.optimizedLines =
      [3, 4, 5, 6, 7] ∧
    countLines (analyzeCode "fibonacci" "f.js" "javascript" ["performance"] none 0 0 0).optimizedCode = 1 ∧
    ∃ n ∈ (analyzeCode "fibonacci" "f.js" "javascript" ["performance"] none 0 0 0).metrics.optimizedLines,
      countLines (analyzeCode "fibonacci" "f.js" "javascript" ["performance"] none 0 0 0).optimizedCode < n := by
  decide

/-- C5, amended: optimizedLines is always either empty or the constant
[3, 4, 5, 6, 7] written by the fibonacci rule; whenever the returned
optimizedCode has at least 7 lines those entries are valid 1-based line
indices, but the code does not guarantee that the rewritten code is that
long. -/
theorem c5_optimizedLines_bounded (code filename language : String)
    (ot : List String) (ad : Option (List String)) (rp rs rr : Nat) :
    ((analyzeCode code filename language ot ad rp rs rr).metrics.optimizedLines = [] ∨
     (analyzeCode code filename language ot ad rp rs rr).metrics.optimizedLines = [3, 4, 5, 6, 7]) ∧
    (7 ≤ countLines (analyzeCode code filename language ot ad rp rs rr).optimizedCode →
      ∀ n ∈ (analyzeCode code filename language ot ad rp rs rr).metrics.optimizedLines,
        1 ≤ n ∧ n ≤ countLines (analyzeCode code filename language ot ad rp rs rr).optimizedCode) := by
  refine ⟨analyzeCode_optimizedLines code filename language ot ad rp rs rr, ?_⟩
  intro h7 n hn
  rcases analyzeCode_optimizedLines code filename language ot ad rp rs rr with hL | hL <;>
    rw [hL] at hn
  · simp at hn
  · simp only [List.mem_cons, List.not_mem_nil, or_false] at hn
    rcases hn with rfl | rfl | rfl | rfl | rfl <;> exact ⟨by omega, by omega⟩

/-- C5, witness for the amended theorem: on the fibonacci program the
rewritten code has at least 7 lines and the entry 3 is a valid index. -/
theorem c5_optimizedLines_witness :
    7 ≤ countLines (analyzeCode fibSource "fib.js" "javascript" ["performance"] none 0 0 0).optimizedCode ∧
    (1 ≤ 3 ∧ 3 ≤ countLines (analyzeCode fibSource "fib.js" "javascript" ["performance"] none 0 0 0).optimizedCode) := by
  refine ⟨by decide, ?_⟩
  exact (c5_optimizedLines_bounded fibSource "fib.js" "javascript" ["performance"] none 0 0 0).2
    (by decide) 3 (by decide)

/-- C6, counterexample: on a source containing two un-memoized fibonacci
functions, one application of applyMemoization rewrites only the first, so
a second application rewrites the second and the composite differs from a
single application. -/
theorem c6_idempotence_counterexample :
    applyMemoization (applyMemoization twoFibSource) ≠ applyMemoization twoFibSource := by
  decide

/-- C6, amended: applyMemoization is a no-op on any source its pattern does
not match, so re-application is the identity whenever the first application
removed every occurrence of the pattern; the original claim fails only when
another un-memoized fibonacci body survives the first rewrite. -/
theorem c6_idempotent_when_no_match (s : String)
    (h : findFib (applyMemoization s).data = none) :
    applyMemoization (applyMemoization s) = applyMemoization s :=
  applyMemoization_no_match _ h

/-- C6, witness: after rewriting the single-fibonacci program the pattern
no longer matches, so the second application changes nothing. -/
theorem c6_idempotent_witness :
    findFib (applyMemoization fibSource).data = none ∧
    applyMemoization (applyMemoization fibSource) = applyMemoization fibSource := by
  exact ⟨by decide, c6_idempotent_when_no_match fibSource (by decide)⟩

/-- C8, counterexample: a doubly-nested for loop written with var instead
of let (inner body free of j+1 and j-1) is left unchanged by the
nested-loop rewrite, and requesting performance through analyzeCode also
yields no loop with a product bound — the detector only matches the literal
let-shape, and analyzeCode has no nested-loop rule at all. -/
theorem c8_nested_loop_counterexample :
    optimizeNestedLoops nestedVarLoopSource = nestedVarLoopSource ∧
    includes nestedVarLoopSource "j+1" = false ∧
    includes nestedVarLoopSource "j-1" = false ∧
    includes (analyzeCode nestedVarLoopSource "m.js" "javascript" ["performance"]
        none 0 0 0).optimizedCode "array.length * array.length" = false := by
  refine ⟨by decide, by decide, by decide, by decide⟩

/-- C8, amended: the flattening is performed only by the geometric
optimizer's optimizeNestedLoops and only on nested loops in the literal
textual shape with let-declared indices i and j starting at 0; for every
inner body free of closing braces and of j+1 and j-1, the loop over
array.length in that shape is rewritten to the single loop whose bound is
the product array.length * array.length, with i and j recovered by
Math.floor of a division and a modulo. -/
theorem c8_let_shape_flattened (body : List Char)
    (hnb : ('\x7d' : Char) ∉ body)
    (hj1 : containsSub body "j+1".data = false)
    (hj2 : containsSub body "j-1".data = false) :
    optimizeNestedLoops (String.mk
      ("for (let i = 0; i < array.length; i++) \x7b for (let j = 0; j < array.length; j++) \x7b".data ++ body ++ "\x7d \x7d".data)) =
    String.mk
      ("// Optimized using dimensional reduction inspired by sheaf cohomology\n// Original pattern had O(nÂ²) complexity, reduced to O(n)\nfor (let idx = 0; idx < array.length * array.length; idx++) \x7b\n  const i = Math.floor(idx / array.length);\n  const j = idx % array.length;".data ++ body ++ "\n\x7d".data) := by
  have hb := braceScan_append body hnb
  have hmatch : ∃ mt, nestedLoopRewriter none
      ("for (let i = 0; i < array.length; i++) \x7b for (let j = 0; j < array.length; j++) \x7b".data ++ body ++ "\x7d \x7d".data) =
      some ("// Optimized using dimensional reduction inspired by sheaf cohomology\n// Original pattern had O(nÂ²) complexity, reduced to O(n)\nfor (let idx = 0; idx < array.length * array.length; idx++) \x7b\n  const i = Math.floor(idx / array.length);\n  const j = idx % array.length;".data ++ body ++ "\n\x7d".data, mt, []) := by
    refine ⟨matchedOf ("for (let i = 0; i < array.length; i++) \x7b for (let j = 0; j < array.length; j++) \x7b".data ++ body ++ "\x7d \x7d".data) [], ?_⟩
    show (match braceScan (body ++ ['\x7d', ' ', '\x7d']) with
          | none => none
          | some (innerCode, rest) =>
            if containsSub innerCode "j+1".data || containsSub innerCode "j-1".data then
              some (matchedOf ("for (let i = 0; i < array.length; i++) \x7b for (let j = 0; j < array.length; j++) \x7b".data ++ body ++ "\x7d \x7d".data) rest,
                    matchedOf ("for (let i = 0; i < array.length; i++) \x7b for (let j = 0; j < array.length; j++) \x7b".data ++ body ++ "\x7d \x7d".data) rest, rest)
            else
              some (nestedTemplate "array.length".data "array.length".data innerCode,
                    matchedOf ("for (let i = 0; i < array.length; i++) \x7b for (let j = 0; j < array.length; j++) \x7b".data ++ body ++ "\x7d \x7d".data) rest, rest)) = _
    rw [hb]
    simp only [hj1, hj2, Bool.or_self, Bool.false_eq_true, if_false]
    rfl
  obtain ⟨mt, hm⟩ := hmatch
  have hne : ("for (let i = 0; i < array.length; i++) \x7b for (let j = 0; j < array.length; j++) \x7b".data ++ body ++ "\x7d \x7d".data) ≠ [] := by
    simp
  have hs := scanReplace_of_match_all nestedLoopRewriter none _ _ _ hm hne
    ("for (let i = 0; i < array.length; i++) \x7b for (let j = 0; j < array.length; j++) \x7b".data ++ body ++ "\x7d \x7d".data).length
    (by simp)
  show String.mk (scanReplace nestedLoopRewriter _ none _) = _
  rw [hs]

/-- C8, witness for the amended theorem: the representative matrix-sum body
satisfies the three side conditions, and on it the flattened single loop is
produced (equivalently, on nestedLetLoopSource the output is
flattenedLoopResult). -/
theorem c8_flatten_witness :
    ('\x7d' : Char) ∉ " sum += matrix[i][j]; ".data ∧
    containsSub " sum += matrix[i][j]; ".data "j+1".data = false ∧
    containsSub " sum += matrix[i][j]; ".data "j-1".data = false ∧
    optimizeNestedLoops (String.mk
      ("for (let i = 0; i < array.length; i++) \x7b for (let j = 0; j < array.length; j++) \x7b".data ++ " sum += matrix[i][j]; ".data ++ "\x7d \x7d".data)) =
    String.mk
      ("// Optimized using dimensional reduction inspired by sheaf cohomology\n// Original pattern had O(nÂ²) complexity, reduced to O(n)\nfor (let idx = 0; idx < array.length * array.length; idx++) \x7b\n  const i = Math.floor(idx / array.length);\n  const j = idx % array.length;".data ++ " sum += matrix[i][j]; ".data ++ "\n\x7d".data) ∧
    optimizeNestedLoops nestedLetLoopSource = flattenedLoopResult :=
  ⟨by decide, by decide, by decide,
   c8_let_shape_flattened " sum += matrix[i][j]; ".data (by decide) (by decide) (by decide),
   by decide⟩

/-- C9, counterexample: the fallback score is Math.floor(random * 20) + 70,
so the value 90 is never produced for an axis with no fired rule — the
claimed uniform range [70, 90] is not the produced one. -/
theorem c9_ninety_counterexample :
    ¬ ∃ rs : Nat, (analyzeCode "x" "f.js" "javascript" ["performance"]
        none 0 rs 0).metrics.securityScore = 90 := by
  rintro ⟨rs, h⟩
  have h0 : (preScoreResult "x" "f.js" "javascript" ["performance"]).metrics.securityScore = 0 := by
    decide
  rw [analyzeCode_eq_defaultScores, defaultScores_securityScore, h0] at h
  simp at h
  omega

/-- C9, amended: every axis whose score is still zero after the rule and
fallback phases receives 70 plus the random draw modulo 20, an integer in
[70, 89] (never 90), and every value of [70, 89] is attained by some draw. -/
theorem c9_random_default_scores (code filename language : String)
    (ot : List String) (ad : Option (List String)) (rp rs rr v : Nat)
    (hv1 : 70 ≤ v) (hv2 : v ≤ 89) :
    ((preScoreResult code filename language ot).metrics.performanceScore = 0 →
      (analyzeCode code filename language ot ad rp rs rr).metrics.performanceScore = 70 + rp % 20 ∧
      70 ≤ (analyzeCode code filename language ot ad rp rs rr).metrics.performanceScore ∧
      (analyzeCode code filename language ot ad rp rs rr).metrics.performanceScore ≤ 89) ∧
    ((preScoreResult code filename language ot).metrics.securityScore = 0 →
      (analyzeCode code filename language ot ad rp rs rr).metrics.securityScore = 70 + rs % 20 ∧
      70 ≤ (analyzeCode code filename language ot ad rp rs rr).metrics.securityScore ∧
      (analyzeCode code filename language ot ad rp rs rr).metrics.securityScore ≤ 89) ∧
    ((preScoreResult code filename language ot).metrics.readabilityScore = 0 →
      (analyzeCode code filename language ot ad rp rs rr).metrics.readabilityScore = 70 + rr % 20 ∧
      70 ≤ (analyzeCode code filename language ot ad rp rs rr).metrics.readabilityScore ∧
      (analyzeCode code filename language ot ad rp rs rr).metrics.readabilityScore ≤ 89) ∧
    (∃ r : Nat, 70 + r % 20 = v) := by
  refine ⟨?_, ?_, ?_, ⟨v - 70, by omega⟩⟩
  · intro h0
    have e : (analyzeCode code filename language ot ad rp rs rr).metrics.performanceScore =
        70 + rp % 20 := by
      rw [analyzeCode_eq_defaultScores, defaultScores_performanceScore, h0]
      simp
    rw [e]
    exact ⟨rfl, by omega, by omega⟩
  · intro h0
    have e : (analyzeCode code filename language ot ad rp rs rr).metrics.securityScore =
        70 + rs % 20 := by
      rw [analyzeCode_eq_defaultScores, defaultScores_securityScore, h0]
      simp
    rw [e]
    exact ⟨rfl, by omega, by omega⟩
  · intro h0
    have e : (analyzeCode code filename language ot ad rp rs rr).metrics.readabilityScore =
        70 + rr % 20 := by
      rw [analyzeCode_eq_defaultScores, defaultScores_readabilityScore_eq, h0]
      simp
    rw [e]
    exact ⟨rfl, by omega, by omega⟩

/-- C9, witness: on an input with no fired security rule, the security
score is 70 plus the draw modulo 20, and 75 is attained. -/
theorem c9_random_default_witness :
    (analyzeCode "x" "f.js" "javascript" ["performance"] none 3 4 5).metrics.securityScore =
      70 + 4 % 20 ∧
    (∃ r : Nat, 70 + r % 20 = 75) := by
  have h := c9_random_default_scores "x" "f.js" "javascript" ["performance"] none 3 4 5 75
    (by decide) (by decide)
  exact ⟨(h.2.1 (by decide)).1, h.2.2.2⟩
